import Mathlib

/-!
Bootstrap-token manager (pkg/token/manager.go).

A shallow embedding of `Manager.Create` and `Manager.ensureTokenRBAC`.

The cluster API client, the random-string helper and the clock are external
collaborators of the manager.  They are taken as parameters: a `Client σ` is a
triple of state-passing operations over an arbitrary cluster state `σ`, and
`Deps` adds the random source, the clock and the timestamp formatter.  Every
remote call is recorded, with its result, in a call log, so that statements of
the form "performs an existence check", "makes no create call" can be read off
the log.
-/

set_option autoImplicit false

namespace Token

/-! ## Go values -/

/-- A non-nil Go `error`.  `status` is an API status error carrying a reason
(what `k8s.io/apimachinery/pkg/api/errors` inspects), `plain` any other error,
and `wrapf` the result of `github.com/pkg/errors.Wrapf`. -/
inductive GoError where
  | status (reason : String) (message : String)
  | plain (message : String)
  | wrapf (cause : GoError) (message : String)
  deriving DecidableEq, Repr

/-- The Go `error` interface value: `none` is `nil`. -/
abbrev Error := Option GoError

/-- Result of `errors.IsNotFound(err)`: true exactly for an API status error
whose reason is `NotFound`; `nil` and every other error give false. -/
def IsNotFound : Error → Bool
  | some (GoError.status reason _) => reason == "NotFound"
  | _ => false

/-- Content of `rbac.RoleRef`. -/
structure RoleRef where
  APIGroup : String
  Kind : String
  Name : String
  deriving DecidableEq, Repr

/-- Content of `rbac.Subject`. -/
structure Subject where
  APIGroup : String
  Kind : String
  Name : String
  deriving DecidableEq, Repr

/-- Content of `rbac.ClusterRoleBinding`; `Name` is `ObjectMeta.Name`. -/
structure ClusterRoleBinding where
  Name : String
  RoleRef : RoleRef
  Subjects : List Subject
  deriving DecidableEq, Repr

/-- The Go zero value of `rbac.ClusterRoleBinding`: empty strings, nil slice. -/
def ClusterRoleBinding.zero : ClusterRoleBinding :=
  { Name := "", RoleRef := { APIGroup := "", Kind := "", Name := "" }, Subjects := [] }

/-- Value of `rbac.SchemeGroupVersion.Group`. -/
def SchemeGroupVersionGroup : String := "rbac.authorization.k8s.io"

/-- Value of `v1.SecretTypeBootstrapToken`. -/
def SecretTypeBootstrapToken : String := "bootstrap.kubernetes.io/token"

/-- A Go `map[string]string`, kept as an association list with at most one
entry per key. -/
abbrev StringMap := List (String × String)

/-- Map read `m[k]` with presence flag. -/
def StringMap.get (m : StringMap) (k : String) : Option String :=
  List.lookup k m

/-- Map write `m[k] = v`: any earlier entry for `k` is replaced. -/
def StringMap.set (m : StringMap) (k v : String) : StringMap :=
  (k, v) :: m.filter (fun e => e.1 != k)

/-- Content of `v1.Secret` as filled in by `Create`. -/
structure Secret where
  Name : String
  Namespace : String
  SecretType : String
  StringData : StringMap
  deriving DecidableEq, Repr

/-! ## The cluster API capability -/

/-- The three client operations the manager uses, over a cluster state `σ`.
Each returns the state after the call and the Go error of the call. -/
structure Client (σ : Type) where
  /-- Models `client.RbacV1().ClusterRoleBindings().Get(name, opts)`. -/
  GetClusterRoleBinding : σ → String → σ × Error
  /-- Models `client.RbacV1().ClusterRoleBindings().Create(crb)`. -/
  CreateClusterRoleBinding : σ → ClusterRoleBinding → σ × Error
  /-- Models `client.CoreV1().Secrets(ns).Create(secret)`. -/
  CreateSecret : σ → String → Secret → σ × Error

/-- One remote call together with the error it returned. -/
inductive Call where
  | getCRB (name : String) (err : Error)
  | createCRB (crb : ClusterRoleBinding) (err : Error)
  | createSecret (ns : String) (secret : Secret) (err : Error)
  deriving DecidableEq, Repr

/-- What a run of `ensureTokenRBAC` leaves behind: the cluster state, the
calls it made in order, and the returned error. -/
structure Outcome (σ : Type) where
  state : σ
  calls : List Call
  err : Error

/-! ## ensureTokenRBAC -/

/-- First appended element (lines 97-113). -/
def crbKubeletBootstrap : ClusterRoleBinding :=
  { Name := "kubelet-bootstrap",
    RoleRef := {
      APIGroup := SchemeGroupVersionGroup,
      Kind := "ClusterRole",
      Name := "system:node-bootstrapper" },
    Subjects := [{
      APIGroup := SchemeGroupVersionGroup,
      Kind := "Group",
      Name := "system:bootstrappers" }] }

/-- Second appended element (lines 115-131). -/
def crbNodeAutoapproveBootstrap : ClusterRoleBinding :=
  { Name := "node-autoapprove-bootstrap",
    RoleRef := {
      APIGroup := SchemeGroupVersionGroup,
      Kind := "ClusterRole",
      Name := "system:certificates.k8s.io:certificatesigningrequests:nodeclient" },
    Subjects := [{
      APIGroup := SchemeGroupVersionGroup,
      Kind := "Group",
      Name := "system:bootstrappers" }] }

/-- Third appended element (lines 133-149). -/
def crbNodeAutoapproveCertificateRotation : ClusterRoleBinding :=
  { Name := "node-autoapprove-certificate-rotation",
    RoleRef := {
      APIGroup := SchemeGroupVersionGroup,
      Kind := "ClusterRole",
      Name := "system:certificates.k8s.io:certificatesigningrequests:selfnodeclient" },
    Subjects := [{
      APIGroup := SchemeGroupVersionGroup,
      Kind := "Group",
      Name := "system:nodes" }] }

/-- The slice `crbs` built by lines 96-149: `make([]rbac.ClusterRoleBinding, 3)`
allocates a slice of length three holding zero values, and each of the three
`append` calls adds one real specification behind them. -/
def crbs : List ClusterRoleBinding :=
  let crbs := List.replicate 3 ClusterRoleBinding.zero
  let crbs := crbs ++ [crbKubeletBootstrap]
  let crbs := crbs ++ [crbNodeAutoapproveBootstrap]
  let crbs := crbs ++ [crbNodeAutoapproveCertificateRotation]
  crbs

/-- The loop of lines 152-162 over the remaining elements of the slice.
A `Get` whose error is not-found is followed by `Create`, whose error (if any)
is returned; any other `Get` result, nil included, is returned at once. -/
def ensureTokenRBAC.loop {σ : Type} (k : Client σ) : List ClusterRoleBinding → σ → Outcome σ
  | [], s => { state := s, calls := [], err := none }
  | crb :: rest, s =>
    let g := k.GetClusterRoleBinding s crb.Name
    if IsNotFound g.2 then
      let c := k.CreateClusterRoleBinding g.1 crb
      match c.2 with
      | some err =>
        { state := c.1, calls := [Call.getCRB crb.Name g.2, Call.createCRB crb (some err)],
          err := some err }
      | none =>
        let o := ensureTokenRBAC.loop k rest c.1
        { state := o.state,
          calls := Call.getCRB crb.Name g.2 :: Call.createCRB crb none :: o.calls,
          err := o.err }
    else
      { state := g.1, calls := [Call.getCRB crb.Name g.2], err := g.2 }

/-- Models `Manager.ensureTokenRBAC` (lines 95-165). -/
def ensureTokenRBAC {σ : Type} (k : Client σ) (s : σ) : Outcome σ :=
  ensureTokenRBAC.loop k crbs s

/-! ## Create -/

/-- The collaborators of `Create`: the cluster client, `util.RandomString`
as a state-passing function over a random source `ρ`, the value of
`time.Now()` in nanoseconds, and `UTC().Format(time.RFC3339)`. -/
structure Deps (σ ρ : Type) where
  client : Client σ
  RandomString : ρ → Nat → String × ρ
  Now : Int
  FormatRFC3339 : Int → String

/-- What a run of `Create` leaves behind: the two return values, the cluster
state, the random source and the calls made in order. -/
structure CreateResult (σ ρ : Type) where
  token : String
  err : Error
  state : σ
  rng : ρ
  calls : List Call

/-- The map `data` after lines 45-62, for the generated id and secret. -/
def Create.data {σ ρ : Type} (d : Deps σ ρ) (tokenID tokenSecret : String) (valid : Int)
    (role : String) : StringMap :=
  let data : StringMap := []
  let data := data.set "token-id" tokenID
  let data := data.set "token-secret" tokenSecret
  let data :=
    if valid ≠ 0 then data.set "expiration" (d.FormatRFC3339 (d.Now + valid)) else data
  if role = "worker" then
    let data := data.set "description" "Worker bootstrap token generated by mke"
    let data := data.set "usage-bootstrap-authentication" "true"
    data.set "usage-bootstrap-signing" "true"
  else
    let data := data.set "description" "Controller bootstrap token generated by mke"
    let data := data.set "usage-bootstrap-authentication" "false"
    let data := data.set "usage-bootstrap-signing" "false"
    data.set "usage-controller-join" "true"

/-- The `v1.Secret` of lines 64-71. -/
def Create.secret {σ ρ : Type} (d : Deps σ ρ) (tokenID tokenSecret : String) (valid : Int)
    (role : String) : Secret :=
  { Name := "bootstrap-token-" ++ tokenID,
    Namespace := "kube-system",
    SecretType := SecretTypeBootstrapToken,
    StringData := Create.data d tokenID tokenSecret valid role }

/-- Models `Manager.Create` (lines 35-79).  `valid` is the `time.Duration`
argument in nanoseconds. -/
def Create {σ ρ : Type} (d : Deps σ ρ) (s : σ) (rng : ρ) (valid : Int) (role : String) :
    CreateResult σ ρ :=
  let r := ensureTokenRBAC d.client s
  match r.err with
  | some err =>
    { token := "",
      err := some (GoError.wrapf err
        "failed to ensure presense of bootstrap token related rbac rules"),
      state := r.state, rng := rng, calls := r.calls }
  | none =>
    let tokenID := d.RandomString rng 6
    let tokenSecret := d.RandomString tokenID.2 16
    let token := tokenID.1 ++ "." ++ tokenSecret.1
    let secret := Create.secret d tokenID.1 tokenSecret.1 valid role
    let c := d.client.CreateSecret r.state "kube-system" secret
    match c.2 with
    | some err =>
      { token := "", err := some err, state := c.1, rng := tokenSecret.2,
        calls := r.calls ++ [Call.createSecret "kube-system" secret (some err)] }
    | none =>
      { token := token, err := none, state := c.1, rng := tokenSecret.2,
        calls := r.calls ++ [Call.createSecret "kube-system" secret none] }

/-! ## A faithful in-memory cluster -/

/-- An in-memory cluster: the bindings and secrets it holds, oldest first. -/
structure Cluster where
  crbs : List ClusterRoleBinding
  secrets : List Secret
  deriving DecidableEq, Repr

/-- Whether a binding of that name exists. -/
def Cluster.hasCRB (c : Cluster) (name : String) : Bool :=
  c.crbs.any (fun b => b.Name == name)

/-- Whether a secret of that namespace and name exists. -/
def Cluster.hasSecret (c : Cluster) (ns name : String) : Bool :=
  c.secrets.any (fun x => x.Namespace == ns && x.Name == name)

/-- Modelled from the spec: the stub capability of sections 6 and 8, a cluster
API without remote failures.  `Get` answers not-found exactly for an absent
name; `Create` stores an absent object and rejects a present one with
already-exists.  Names are compared as plain strings. -/
def stub : Client Cluster where
  GetClusterRoleBinding := fun c name =>
    if c.hasCRB name then (c, none)
    else (c, some (GoError.status "NotFound" name))
  CreateClusterRoleBinding := fun c crb =>
    if c.hasCRB crb.Name then (c, some (GoError.status "AlreadyExists" crb.Name))
    else ({ c with crbs := c.crbs ++ [crb] }, none)
  CreateSecret := fun c ns secret =>
    if c.hasSecret ns secret.Name then (c, some (GoError.status "AlreadyExists" secret.Name))
    else ({ c with secrets := c.secrets ++ [secret] }, none)

/-- A cluster API like `stub`, except that a request for the empty name is
refused: `Get` with the error of the client-go request builder, `Create`
with an Invalid status. -/
def stubStrict : Client Cluster where
  GetClusterRoleBinding := fun c name =>
    if name = "" then (c, some (GoError.plain "resource name may not be empty"))
    else stub.GetClusterRoleBinding c name
  CreateClusterRoleBinding := fun c crb =>
    if crb.Name = "" then (c, some (GoError.status "Invalid" crb.Name))
    else stub.CreateClusterRoleBinding c crb
  CreateSecret := stub.CreateSecret

/-- The cluster with no bindings and no secrets. -/
def Cluster.empty : Cluster := { crbs := [], secrets := [] }

/-- The three binding names of the doc comment of `ensureTokenRBAC`. -/
def requiredNames : List String :=
  ["kubelet-bootstrap", "node-autoapprove-bootstrap", "node-autoapprove-certificate-rotation"]

/-- A cluster API whose existence check is refused for every name with a
Forbidden status; the create operations are those of `stub`. -/
def forbidden : Client Cluster where
  GetClusterRoleBinding := fun c name => (c, some (GoError.status "Forbidden" name))
  CreateClusterRoleBinding := stub.CreateClusterRoleBinding
  CreateSecret := stub.CreateSecret

/-- The alphabet `[a-zA-Z0-9]`. -/
def letters : List Char :=
  "abcdefghijklmnopqrstuvwxyzABCDEFGHIJKLMNOPQRSTUVWXYZ0123456789".data

/-- A deterministic stand-in for `util.RandomString`: `n` letters of the
alphabet starting at offset `seed`, and the advanced seed. -/
def cyclicRandomString (seed n : Nat) : String × Nat :=
  (String.mk ((List.range n).map (fun i => letters.getD ((seed + i) % 62) 'a')), seed + n)

/-- Collaborators for concrete runs: the given client, the cyclic random
source, a clock at zero and a formatter that prints the nanosecond count. -/
def demoDeps {σ : Type} (k : Client σ) : Deps σ Nat :=
  { client := k, RandomString := cyclicRandomString, Now := 0,
    FormatRFC3339 := fun t => toString t }

/-- A cluster that already holds the first real binding and nothing else. -/
def clusterWithFirst : Cluster :=
  { crbs := [crbKubeletBootstrap], secrets := [] }

/-! ## Reading the call log -/

/-- The secrets handed to create-secret calls, in order. -/
def createdSecrets : List Call → List Secret
  | [] => []
  | Call.createSecret _ secret _ :: rest => secret :: createdSecrets rest
  | _ :: rest => createdSecrets rest

/-- The bindings handed to create-binding calls, in order. -/
def createdCRBs : List Call → List ClusterRoleBinding
  | [] => []
  | Call.createCRB crb _ :: rest => crb :: createdCRBs rest
  | _ :: rest => createdCRBs rest

/-- The names on which an existence check was performed, in order. -/
def checkedNames : List Call → List String
  | [] => []
  | Call.getCRB name _ :: rest => name :: checkedNames rest
  | _ :: rest => checkedNames rest

/-- The cluster state after `n` successive runs of `ensureTokenRBAC`. -/
def ensureTimes {σ : Type} (k : Client σ) : Nat → σ → σ
  | 0, s => s
  | n + 1, s => ensureTimes k n (ensureTokenRBAC k s).state

/-- ASCII letters and digits, the class `[A-Za-z0-9]`. -/
def isAlnum (c : Char) : Bool :=
  c.isAlphanum

/-- Split of a string at the first occurrence of `sep`, which is dropped;
`none` when `sep` does not occur. -/
def splitAtFirst (sep : Char) (s : String) : Option (String × String) :=
  match s.data.span (fun c => c != sep) with
  | (_, []) => none
  | (before, _ :: after) => some (String.mk before, String.mk after)


/-! ## The reconciliation loop, for an arbitrary client -/

section Loop

variable {σ : Type} (k : Client σ)

theorem loop_createdSecrets (l : List ClusterRoleBinding) (s : σ) :
    createdSecrets (ensureTokenRBAC.loop k l s).calls = [] := by
  induction l generalizing s with
  | nil => simp [ensureTokenRBAC.loop, createdSecrets]
  | cons crb rest ih =>
    unfold ensureTokenRBAC.loop
    by_cases h : IsNotFound (k.GetClusterRoleBinding s crb.Name).2 = true
    · simp only [h, if_true]
      cases hc : (k.CreateClusterRoleBinding (k.GetClusterRoleBinding s crb.Name).1 crb).2 with
      | some err => simp [createdSecrets]
      | none => simp [createdSecrets, ih]
    · simp [h, createdSecrets]

theorem loop_preserves {α : Type} (view : σ → α)
    (hget : ∀ s name, view (k.GetClusterRoleBinding s name).1 = view s)
    (hcreate : ∀ s crb, view (k.CreateClusterRoleBinding s crb).1 = view s)
    (l : List ClusterRoleBinding) (s : σ) :
    view (ensureTokenRBAC.loop k l s).state = view s := by
  induction l generalizing s with
  | nil => simp [ensureTokenRBAC.loop]
  | cons crb rest ih =>
    unfold ensureTokenRBAC.loop
    by_cases h : IsNotFound (k.GetClusterRoleBinding s crb.Name).2 = true
    · simp only [h, if_true]
      cases hc : (k.CreateClusterRoleBinding (k.GetClusterRoleBinding s crb.Name).1 crb).2 with
      | some err => simp [hcreate, hget]
      | none => simp [ih, hcreate, hget]
    · simp [h, hget]

theorem loop_checked_or_created_mem (l : List ClusterRoleBinding) (s : σ) :
    (∀ name ∈ checkedNames (ensureTokenRBAC.loop k l s).calls, ∃ crb ∈ l, crb.Name = name) ∧
      (∀ crb ∈ createdCRBs (ensureTokenRBAC.loop k l s).calls, crb ∈ l) := by
  induction l generalizing s with
  | nil => simp [ensureTokenRBAC.loop, checkedNames, createdCRBs]
  | cons crb rest ih =>
    unfold ensureTokenRBAC.loop
    by_cases h : IsNotFound (k.GetClusterRoleBinding s crb.Name).2 = true
    · simp only [h, if_true]
      cases hc : (k.CreateClusterRoleBinding (k.GetClusterRoleBinding s crb.Name).1 crb).2 with
      | some err => simp [checkedNames, createdCRBs]
      | none =>
        obtain ⟨h1, h2⟩ := ih (k.CreateClusterRoleBinding (k.GetClusterRoleBinding s crb.Name).1 crb).1
        constructor
        · intro name hn
          simp only [checkedNames, List.mem_cons] at hn
          rcases hn with rfl | hn
          · exact ⟨crb, by simp, rfl⟩
          · obtain ⟨b, hb, hbn⟩ := h1 name hn
            exact ⟨b, List.mem_cons_of_mem _ hb, hbn⟩
        · intro b hb
          simp only [checkedNames, createdCRBs, List.mem_cons] at hb
          rcases hb with rfl | hb
          · simp
          · exact List.mem_cons_of_mem _ (h2 b hb)
    · simp [h, checkedNames, createdCRBs]

end Loop


/-! ## Create, for arbitrary collaborators -/

section CreateLemmas

variable {σ ρ : Type} (d : Deps σ ρ)

theorem createdSecrets_append (a b : List Call) :
    createdSecrets (a ++ b) = createdSecrets a ++ createdSecrets b := by
  induction a with
  | nil => simp [createdSecrets]
  | cons c rest ih => cases c <;> simp [createdSecrets, ih]

theorem ensureTokenRBAC_createdSecrets (k : Client σ) (s : σ) :
    createdSecrets (ensureTokenRBAC k s).calls = [] :=
  loop_createdSecrets k crbs s

theorem Create_of_ensure_err (s : σ) (rng : ρ) (valid : Int) (role : String) (e : GoError)
    (h : (ensureTokenRBAC d.client s).err = some e) :
    Create d s rng valid role =
      { token := "",
        err := some (GoError.wrapf e
          "failed to ensure presense of bootstrap token related rbac rules"),
        state := (ensureTokenRBAC d.client s).state, rng := rng,
        calls := (ensureTokenRBAC d.client s).calls } := by
  simp [Create, h]

theorem Create_createdSecrets_of_ok (s : σ) (rng : ρ) (valid : Int) (role : String)
    (h : (ensureTokenRBAC d.client s).err = none) :
    createdSecrets (Create d s rng valid role).calls =
      [Create.secret d (d.RandomString rng 6).1
        (d.RandomString (d.RandomString rng 6).2 16).1 valid role] := by
  simp only [Create, h]
  split <;> simp [createdSecrets_append, ensureTokenRBAC_createdSecrets, createdSecrets]

theorem Create_createdSecrets_of_err (s : σ) (rng : ρ) (valid : Int) (role : String)
    (e : GoError) (h : (ensureTokenRBAC d.client s).err = some e) :
    createdSecrets (Create d s rng valid role).calls = [] := by
  rw [Create_of_ensure_err d s rng valid role e h]
  exact ensureTokenRBAC_createdSecrets d.client s

theorem Create_ok_ensure_ok (s : σ) (rng : ρ) (valid : Int) (role : String)
    (h : (Create d s rng valid role).err = none) :
    (ensureTokenRBAC d.client s).err = none := by
  cases he : (ensureTokenRBAC d.client s).err with
  | none => rfl
  | some e =>
    rw [Create_of_ensure_err d s rng valid role e he] at h
    simp at h

theorem Create_ok_token (s : σ) (rng : ρ) (valid : Int) (role : String)
    (h : (Create d s rng valid role).err = none) :
    (Create d s rng valid role).token =
      (d.RandomString rng 6).1 ++ "." ++ (d.RandomString (d.RandomString rng 6).2 16).1 := by
  have he := Create_ok_ensure_ok d s rng valid role h
  simp only [Create, he] at h ⊢
  split
  · rename_i err hc
    simp only [hc] at h
    simp at h
  · rfl

theorem data_usage_worker (tokenID tokenSecret : String) (valid : Int) :
    (Create.data d tokenID tokenSecret valid "worker").get "usage-bootstrap-authentication"
        = some "true" ∧
      (Create.data d tokenID tokenSecret valid "worker").get "usage-bootstrap-signing"
        = some "true" ∧
      (Create.data d tokenID tokenSecret valid "worker").get "usage-controller-join" = none := by
  by_cases hv : valid = 0 <;>
    simp [Create.data, StringMap.set, StringMap.get, List.lookup, List.filter, hv]

theorem data_usage_controller (tokenID tokenSecret : String) (valid : Int) :
    (Create.data d tokenID tokenSecret valid "controller").get "usage-bootstrap-authentication"
        = some "false" ∧
      (Create.data d tokenID tokenSecret valid "controller").get "usage-bootstrap-signing"
        = some "false" ∧
      (Create.data d tokenID tokenSecret valid "controller").get "usage-controller-join"
        = some "true" := by
  by_cases hv : valid = 0 <;>
    simp [Create.data, StringMap.set, StringMap.get, List.lookup, List.filter, hv]

end CreateLemmas

/-! ## Token strings -/

section Strings

theorem span_ne_append (sep : Char) (a b : List Char) (h : ∀ c ∈ a, c ≠ sep) :
    (a ++ sep :: b).span (fun c => c != sep) = (a, sep :: b) := by
  induction a with
  | nil => simp [List.span_eq_take_drop]
  | cons x rest ih =>
    have hx : x ≠ sep := h x (by simp)
    have hrest : ∀ c ∈ rest, c ≠ sep := fun c hc => h c (by simp [hc])
    have ih2 := ih hrest
    rw [List.span_eq_take_drop] at ih2 ⊢
    simp only [Prod.mk.injEq] at ih2
    simp [List.takeWhile_cons, List.dropWhile_cons, hx, ih2.1, ih2.2]

theorem splitAtFirst_join (sep : Char) (a b : String) (h : ∀ c ∈ a.data, c ≠ sep) :
    splitAtFirst sep (a ++ String.singleton sep ++ b) = some (a, b) := by
  have hd : (a ++ String.singleton sep ++ b).data = a.data ++ sep :: b.data := by
    simp [String.data_append, String.singleton]
  simp only [splitAtFirst, hd, span_ne_append sep a.data b.data h]

theorem count_join (sep : Char) (a b : String) (ha : ∀ c ∈ a.data, c ≠ sep)
    (hb : ∀ c ∈ b.data, c ≠ sep) :
    (a ++ String.singleton sep ++ b).data.count sep = 1 := by
  have hd : (a ++ String.singleton sep ++ b).data = a.data ++ sep :: b.data := by
    simp [String.data_append, String.singleton]
  have h1 : a.data.count sep = 0 := List.count_eq_zero.mpr (fun hm => ha sep hm rfl)
  have h2 : b.data.count sep = 0 := List.count_eq_zero.mpr (fun hm => hb sep hm rfl)
  rw [hd, List.count_append, List.count_cons_self, h1, h2]

theorem alnum_ne_dot (c : Char) (h : isAlnum c = true) : c ≠ '.' := by
  intro hc
  rw [hc] at h
  revert h
  decide

theorem cyclicRandomString_spec (g n : Nat) :
    (cyclicRandomString g n).1.length = n ∧
      ∀ c ∈ (cyclicRandomString g n).1.data, isAlnum c = true := by
  constructor
  · simp [cyclicRandomString, String.length]
  · intro c hc
    simp only [cyclicRandomString, List.mem_map, List.mem_range] at hc
    obtain ⟨i, _, rfl⟩ := hc
    have hall : ∀ j, j < 62 → isAlnum (letters.getD j 'a') = true := by decide
    exact hall _ (Nat.mod_lt _ (by decide))

end Strings

/-! ## The faithful stub -/

section Stub

theorem ensureTokenRBAC_stub_fixed (c : Cluster) (h : c.hasCRB "" = true) :
    (ensureTokenRBAC stub c).state = c ∧
      (ensureTokenRBAC stub c).calls = [Call.getCRB "" none] ∧
      (ensureTokenRBAC stub c).err = none := by
  have hg : stub.GetClusterRoleBinding c "" = (c, none) := by
    simp [stub, h]
  simp [ensureTokenRBAC, crbs, List.replicate, ensureTokenRBAC.loop, ClusterRoleBinding.zero,
    hg, IsNotFound]

theorem ensureTimes_stub_fixed (n : Nat) (c : Cluster) (h : c.hasCRB "" = true) :
    ensureTimes stub n c = c := by
  induction n with
  | zero => rfl
  | succ m ih => simp [ensureTimes, (ensureTokenRBAC_stub_fixed c h).1, ih]

theorem ensureTimes_stub_empty (n : Nat) :
    ensureTimes stub (n + 1) Cluster.empty =
      { crbs := [ClusterRoleBinding.zero], secrets := [] } := by
  have h1 : (ensureTokenRBAC stub Cluster.empty).state =
      { crbs := [ClusterRoleBinding.zero], secrets := [] } := by decide
  simp only [ensureTimes, h1]
  exact ensureTimes_stub_fixed n _ (by decide)

theorem ensureTokenRBAC_stubStrict (c : Cluster) :
    (ensureTokenRBAC stubStrict c).state = c ∧
      (ensureTokenRBAC stubStrict c).calls =
        [Call.getCRB "" (some (GoError.plain "resource name may not be empty"))] ∧
      (ensureTokenRBAC stubStrict c).err =
        some (GoError.plain "resource name may not be empty") := by
  have hg : stubStrict.GetClusterRoleBinding c "" =
      (c, some (GoError.plain "resource name may not be empty")) := by
    simp [stubStrict]
  simp [ensureTokenRBAC, crbs, List.replicate, ensureTokenRBAC.loop, ClusterRoleBinding.zero,
    hg, IsNotFound]

theorem ensureTimes_stubStrict (n : Nat) (c : Cluster) :
    ensureTimes stubStrict n c = c := by
  induction n with
  | zero => rfl
  | succ m ih => simp [ensureTimes, (ensureTokenRBAC_stubStrict c).1, ih]

end Stub

/-! ## The claims -/

/-- C1, evaluated on the code.  On the faithful stub holding only
kubelet-bootstrap, one call of `ensureTokenRBAC` checks the empty name, creates
the zero-valued binding, finds it on the second check and returns nil: none of
the three fixed names is checked and the two absent bindings stay absent.
The loop alone, run over the three real specifications only, returns nil right
after finding kubelet-bootstrap.  On the stub that refuses the empty name the
call returns the refusal of its first check and changes nothing. -/
theorem ensureTokenRBAC_first_present_skips_rest :
    (ensureTokenRBAC stub clusterWithFirst).err = none ∧
      (ensureTokenRBAC stub clusterWithFirst).calls =
        [Call.getCRB "" (some (GoError.status "NotFound" "")),
         Call.createCRB ClusterRoleBinding.zero none,
         Call.getCRB "" none] ∧
      (ensureTokenRBAC stub clusterWithFirst).state.crbs =
        [crbKubeletBootstrap, ClusterRoleBinding.zero] ∧
      (∀ name ∈ requiredNames,
        name ∉ checkedNames (ensureTokenRBAC stub clusterWithFirst).calls) ∧
      (ensureTokenRBAC stub clusterWithFirst).state.hasCRB "node-autoapprove-bootstrap"
        = false ∧
      (ensureTokenRBAC stub clusterWithFirst).state.hasCRB
        "node-autoapprove-certificate-rotation" = false ∧
      (ensureTokenRBAC.loop stub (crbs.drop 3) clusterWithFirst).calls =
        [Call.getCRB "kubelet-bootstrap" none] ∧
      (ensureTokenRBAC.loop stub (crbs.drop 3) clusterWithFirst).err = none ∧
      (ensureTokenRBAC.loop stub (crbs.drop 3) clusterWithFirst).state = clusterWithFirst ∧
      (ensureTokenRBAC stubStrict clusterWithFirst).calls =
        [Call.getCRB "" (some (GoError.plain "resource name may not be empty"))] ∧
      (ensureTokenRBAC stubStrict clusterWithFirst).state = clusterWithFirst := by
  decide

/-- C2, evaluated on the code.  Starting from the empty faithful stub, after
any number `n + 1` of calls of `ensureTokenRBAC` the cluster holds exactly one
binding, the zero-valued one, and none of the three fixed bindings; a further
call makes no create call and leaves the cluster unchanged.  On the stub that
refuses the empty name the cluster stays empty. -/
theorem ensureTokenRBAC_repeated_from_empty (n : Nat) :
    (ensureTimes stub (n + 1) Cluster.empty).crbs = [ClusterRoleBinding.zero] ∧
      (∀ name ∈ requiredNames, (ensureTimes stub (n + 1) Cluster.empty).hasCRB name = false) ∧
      createdCRBs (ensureTokenRBAC stub (ensureTimes stub (n + 1) Cluster.empty)).calls = [] ∧
      (ensureTokenRBAC stub (ensureTimes stub (n + 1) Cluster.empty)).state =
        ensureTimes stub (n + 1) Cluster.empty ∧
      ensureTimes stubStrict (n + 1) Cluster.empty = Cluster.empty := by
  rw [ensureTimes_stub_empty n, ensureTimes_stubStrict (n + 1) Cluster.empty]
  decide

/-- C4.  If `ensureTokenRBAC` returns the error `e`, then `Create` returns the
empty token and `e` wrapped by `Wrapf`, makes no call beyond those of
`ensureTokenRBAC` (among which there is no create-secret call), draws nothing
from the random source, and leaves unchanged everything in the cluster that
the binding calls leave unchanged, such as the set of secrets. -/
theorem Create_fails_closed {σ ρ : Type} (d : Deps σ ρ) (s : σ) (rng : ρ) (valid : Int)
    (role : String) (e : GoError) (h : (ensureTokenRBAC d.client s).err = some e) :
    (Create d s rng valid role).token = "" ∧
      (Create d s rng valid role).err = some (GoError.wrapf e
        "failed to ensure presense of bootstrap token related rbac rules") ∧
      (Create d s rng valid role).calls = (ensureTokenRBAC d.client s).calls ∧
      createdSecrets (Create d s rng valid role).calls = [] ∧
      (Create d s rng valid role).rng = rng ∧
      (Create d s rng valid role).state = (ensureTokenRBAC d.client s).state ∧
      (∀ (α : Type) (view : σ → α),
        (∀ t name, view (d.client.GetClusterRoleBinding t name).1 = view t) →
        (∀ t crb, view (d.client.CreateClusterRoleBinding t crb).1 = view t) →
        view (Create d s rng valid role).state = view s) := by
  have hc := Create_of_ensure_err d s rng valid role e h
  refine ⟨by rw [hc], by rw [hc], by rw [hc], ?_, by rw [hc], by rw [hc], ?_⟩
  · exact Create_createdSecrets_of_err d s rng valid role e h
  · intro α view hget hcreate
    rw [hc]
    exact loop_preserves d.client view hget hcreate crbs s

/-- Witness for C4: with the existence check forbidden, `Create` on the empty
cluster fails closed and the set of secrets is unchanged. -/
theorem Create_fails_closed_witness :
    (ensureTokenRBAC (demoDeps forbidden).client Cluster.empty).err
        = some (GoError.status "Forbidden" "") ∧
      (Create (demoDeps forbidden) Cluster.empty 7 3600000000000 "worker").token = "" ∧
      (Create (demoDeps forbidden) Cluster.empty 7 3600000000000 "worker").err =
        some (GoError.wrapf (GoError.status "Forbidden" "")
          "failed to ensure presense of bootstrap token related rbac rules") ∧
      createdSecrets (Create (demoDeps forbidden) Cluster.empty 7 3600000000000 "worker").calls
        = [] ∧
      (Create (demoDeps forbidden) Cluster.empty 7 3600000000000 "worker").rng = 7 ∧
      (Create (demoDeps forbidden) Cluster.empty 7 3600000000000 "worker").state.secrets
        = Cluster.empty.secrets := by
  have h := Create_fails_closed (demoDeps forbidden) Cluster.empty 7 3600000000000 "worker"
    (GoError.status "Forbidden" "") (by decide)
  refine ⟨by decide, h.1, h.2.1, h.2.2.2.1, h.2.2.2.2.1, ?_⟩
  apply h.2.2.2.2.2.2 (List Secret) Cluster.secrets
  · intro t name
    rfl
  · intro t crb
    simp only [demoDeps, forbidden, stub]
    split <;> rfl

/-- C5, evaluated on the code.  The slice that `ensureTokenRBAC` walks has six
entries: three zero-valued ones followed by the three documented
specifications.  On the empty faithful stub the call checks the empty name
twice and creates the zero-valued binding, whose name is none of the three. -/
theorem crbs_has_zero_entries :
    crbs.length = 6 ∧
      crbs.map (fun b => b.Name) =
        ["", "", "", "kubelet-bootstrap", "node-autoapprove-bootstrap",
         "node-autoapprove-certificate-rotation"] ∧
      crbs.take 3 = [ClusterRoleBinding.zero, ClusterRoleBinding.zero, ClusterRoleBinding.zero] ∧
      crbs.drop 3 =
        [{ Name := "kubelet-bootstrap",
           RoleRef := { APIGroup := "rbac.authorization.k8s.io", Kind := "ClusterRole",
                        Name := "system:node-bootstrapper" },
           Subjects := [{ APIGroup := "rbac.authorization.k8s.io", Kind := "Group",
                          Name := "system:bootstrappers" }] },
         { Name := "node-autoapprove-bootstrap",
           RoleRef := { APIGroup := "rbac.authorization.k8s.io", Kind := "ClusterRole",
                        Name := "system:certificates.k8s.io:certificatesigningrequests:nodeclient" },
           Subjects := [{ APIGroup := "rbac.authorization.k8s.io", Kind := "Group",
                          Name := "system:bootstrappers" }] },
         { Name := "node-autoapprove-certificate-rotation",
           RoleRef := { APIGroup := "rbac.authorization.k8s.io", Kind := "ClusterRole",
                        Name := "system:certificates.k8s.io:certificatesigningrequests:selfnodeclient" },
           Subjects := [{ APIGroup := "rbac.authorization.k8s.io", Kind := "Group",
                          Name := "system:nodes" }] }] ∧
      checkedNames (ensureTokenRBAC stub Cluster.empty).calls = ["", ""] ∧
      createdCRBs (ensureTokenRBAC stub Cluster.empty).calls = [ClusterRoleBinding.zero] ∧
      "" ∉ requiredNames := by
  decide

/-- C6.  Whenever `ensureTokenRBAC` returns nil, `Create` hands exactly one
secret to the create-secret call, and its usage fields follow the role: for
"worker" bootstrap-authentication and bootstrap-signing are "true" and
controller-join is absent; for "controller" the first two are "false" and
controller-join is "true".  This holds for every validity. -/
theorem Create_usage_flags {σ ρ : Type} (d : Deps σ ρ) (s : σ) (rng : ρ) (valid : Int)
    (h : (ensureTokenRBAC d.client s).err = none) :
    (∃ secret, createdSecrets (Create d s rng valid "worker").calls = [secret] ∧
        secret.StringData.get "usage-bootstrap-authentication" = some "true" ∧
        secret.StringData.get "usage-bootstrap-signing" = some "true" ∧
        secret.StringData.get "usage-controller-join" = none) ∧
      (∃ secret, createdSecrets (Create d s rng valid "controller").calls = [secret] ∧
        secret.StringData.get "usage-bootstrap-authentication" = some "false" ∧
        secret.StringData.get "usage-bootstrap-signing" = some "false" ∧
        secret.StringData.get "usage-controller-join" = some "true") := by
  constructor
  · exact ⟨_, Create_createdSecrets_of_ok d s rng valid "worker" h,
      data_usage_worker d _ _ valid⟩
  · exact ⟨_, Create_createdSecrets_of_ok d s rng valid "controller" h,
      data_usage_controller d _ _ valid⟩

/-- Witness for C6: the empty faithful stub, validity zero. -/
theorem Create_usage_flags_witness :
    (ensureTokenRBAC (demoDeps stub).client Cluster.empty).err = none ∧
      (∃ secret, createdSecrets (Create (demoDeps stub) Cluster.empty 0 0 "worker").calls
          = [secret] ∧
        secret.StringData.get "usage-bootstrap-authentication" = some "true" ∧
        secret.StringData.get "usage-bootstrap-signing" = some "true" ∧
        secret.StringData.get "usage-controller-join" = none) ∧
      (∃ secret, createdSecrets (Create (demoDeps stub) Cluster.empty 0 0 "controller").calls
          = [secret] ∧
        secret.StringData.get "usage-bootstrap-authentication" = some "false" ∧
        secret.StringData.get "usage-bootstrap-signing" = some "false" ∧
        secret.StringData.get "usage-controller-join" = some "true") :=
  ⟨by decide, Create_usage_flags (demoDeps stub) Cluster.empty 0 0 (by decide)⟩

/-- C8.  If the random source returns, for every requested length `n`, a string
of `n` characters from `[A-Za-z0-9]`, then the token returned by a successful
`Create` is the generated id (6 alphanumeric characters), one '.', and the
generated secret (16 alphanumeric characters): it has length 23, contains '.'
exactly once, at index 6, and splitting it at the first '.' gives back the id
and the secret. -/
theorem Create_token_format {σ ρ : Type} (d : Deps σ ρ) (s : σ) (rng : ρ) (valid : Int)
    (role : String)
    (hrand : ∀ g n, (d.RandomString g n).1.length = n ∧
      ∀ c ∈ (d.RandomString g n).1.data, isAlnum c = true)
    (hok : (Create d s rng valid role).err = none) :
    ∃ tokenID tokenSecret : String,
      tokenID = (d.RandomString rng 6).1 ∧
      tokenSecret = (d.RandomString (d.RandomString rng 6).2 16).1 ∧
      (Create d s rng valid role).token = tokenID ++ "." ++ tokenSecret ∧
      tokenID.length = 6 ∧ (∀ c ∈ tokenID.data, isAlnum c = true) ∧
      tokenSecret.length = 16 ∧ (∀ c ∈ tokenSecret.data, isAlnum c = true) ∧
      (Create d s rng valid role).token.length = 23 ∧
      (Create d s rng valid role).token.data.count '.' = 1 ∧
      (Create d s rng valid role).token.data[6]? = some '.' ∧
      splitAtFirst '.' (Create d s rng valid role).token = some (tokenID, tokenSecret) := by
  have htok := Create_ok_token d s rng valid role hok
  obtain ⟨hl1, ha1⟩ := hrand rng 6
  obtain ⟨hl2, ha2⟩ := hrand (d.RandomString rng 6).2 16
  have hn1 : ∀ c ∈ (d.RandomString rng 6).1.data, c ≠ '.' :=
    fun c hc => alnum_ne_dot c (ha1 c hc)
  have hn2 : ∀ c ∈ (d.RandomString (d.RandomString rng 6).2 16).1.data, c ≠ '.' :=
    fun c hc => alnum_ne_dot c (ha2 c hc)
  have hdot : ("." : String) = String.singleton '.' := rfl
  refine ⟨_, _, rfl, rfl, htok, hl1, ha1, hl2, ha2, ?_, ?_, ?_, ?_⟩
  · rw [htok]
    have hone : (".").length = 1 := rfl
    simp [String.length_append, hl1, hl2, hone]
  · rw [htok, hdot]
    exact count_join '.' _ _ hn1 hn2
  · rw [htok]
    have hlen : (d.RandomString rng 6).1.data.length = 6 := hl1
    have hd : ((d.RandomString rng 6).1 ++ "." ++
        (d.RandomString (d.RandomString rng 6).2 16).1).data =
        (d.RandomString rng 6).1.data ++
          '.' :: (d.RandomString (d.RandomString rng 6).2 16).1.data := by
      simp [String.data_append]
    rw [hd, List.getElem?_append_right (by omega), hlen]
    simp
  · rw [htok, hdot]
    exact splitAtFirst_join '.' _ _ hn1

/-- Witness for C8: the cyclic random source on the empty faithful stub. -/
theorem Create_token_format_witness :
    (∀ g n, ((demoDeps stub).RandomString g n).1.length = n ∧
      ∀ c ∈ ((demoDeps stub).RandomString g n).1.data, isAlnum c = true) ∧
    (Create (demoDeps stub) Cluster.empty 0 3600000000000 "worker").err = none ∧
    ∃ tokenID tokenSecret : String,
      tokenID = ((demoDeps stub).RandomString 0 6).1 ∧
      tokenSecret = ((demoDeps stub).RandomString ((demoDeps stub).RandomString 0 6).2 16).1 ∧
      (Create (demoDeps stub) Cluster.empty 0 3600000000000 "worker").token
        = tokenID ++ "." ++ tokenSecret ∧
      tokenID.length = 6 ∧ (∀ c ∈ tokenID.data, isAlnum c = true) ∧
      tokenSecret.length = 16 ∧ (∀ c ∈ tokenSecret.data, isAlnum c = true) ∧
      (Create (demoDeps stub) Cluster.empty 0 3600000000000 "worker").token.length = 23 ∧
      (Create (demoDeps stub) Cluster.empty 0 3600000000000 "worker").token.data.count '.'
        = 1 ∧
      (Create (demoDeps stub) Cluster.empty 0 3600000000000 "worker").token.data[6]?
        = some '.' ∧
      splitAtFirst '.' (Create (demoDeps stub) Cluster.empty 0 3600000000000 "worker").token
        = some (tokenID, tokenSecret) :=
  ⟨cyclicRandomString_spec, by decide,
    Create_token_format (demoDeps stub) Cluster.empty 0 3600000000000 "worker"
      cyclicRandomString_spec (by decide)⟩

end Token
